import Mathlib

/-!
The rep2xy firmware, `firmware/Main.cc`: command dispatch, main loop, startup.

A shallow embedding of `handle_mcode`, `handle_gcode`, the body of the
`while (1)` loop of `main`, and the straight-line code of `reset`,
`init_timers` and the head of `main`.  Every call the code makes on a
collaborator (motion subsystem, echo flag, transport, watchdog, command reset)
is logged, in program order, in a list of `Call`s; the answers of the
collaborators are read from a `Motion` record.  Reads of the parsed command
(`code()`, `has_param`, `operator[]`, `is_ok`) are pure accessors and are not
logged.
-/

namespace Rep2xy

/-- A `float` value as the firmware handles it: a finite number, the IEEE
negative zero, an infinity, or a NaN.  The code only passes such values on and
compares them with `0`. -/
inductive Val where
  | num (q : ℚ)
  | negZero
  | inf (neg : Bool)
  | nan
  deriving DecidableEq

/-- The C comparison `x != 0` on a `float`: false exactly on the two zeros,
true on every other finite value, on the infinities and on NaN. -/
def Val.neZero : Val → Bool
  | .num q => q != 0
  | .negZero => false
  | .inf _ => true
  | .nan => true

/-- The `ResultCode` enum of `Main.cc`. -/
inductive ResultCode where
  | RC_OK
  | RC_ERR
  | RC_FULL
  deriving DecidableEq, Repr

/-- The parsed command `cmd()` as `Main.cc` reads it: `is_ok()`,
`code().code`, `code().value`, `has_param(i)` and `operator[](i)`.  The class
itself lives in `CommandParser.hh`; presence and value of a parameter are kept
as two independent accessors, as in the code. -/
structure Command where
  is_ok : Bool
  code : Char
  value : Nat
  has_param : Nat → Bool
  param : Nat → Val

/-- What `Main.cc` takes from headers that are not part of the sources: the
parameter indices `X`, `Y`, `F`, `P` (`CommandParser.hh`), the default
feedrates (`Configuration.hh`), the axis identifiers `motion::X`, `motion::Y`
(`Motion.hh`) and the text `sprintf` produces for `"X: %.2f Y: %.2f"`. -/
structure Headers where
  X : Nat
  Y : Nat
  F : Nat
  P : Nat
  DEFAULT_G0_FEEDRATE : Val
  DEFAULT_G1_FEEDRATE : Val
  motionX : Nat
  motionY : Nat
  sprintf : Val → Val → String

/-- The answers of the motion subsystem to the three queries of `Main.cc`. -/
structure Motion where
  queue_ready : Bool
  queue_done : Bool
  get_axis_position : Nat → Val

/-- One logged call.  `handle_mcode` and `handle_gcode` mark the entry into a
handler; the others are the collaborator operations. -/
inductive Call where
  | wdt_reset
  | check_for_command
  | cmd_reset
  | handle_mcode
  | handle_gcode
  | queue_ready
  | queue_done
  | get_axis_position (axis : Nat)
  | enqueue_pen (up : Bool)
  | enqueue_move (x y f : Val)
  | enqueue_dwell (p : Val)
  | enable (i : Nat) (en : Bool)
  | reset_axes
  | set_jog (x y f : Val)
  | set_echo (echo : Bool)
  | write_string (s : String)
  deriving DecidableEq

/-- The operations that change the state of a collaborator: the three
enqueues, `enable`, `reset_axes`, `set_jog` and `set_echo`. -/
def Call.mutating : Call → Bool
  | .enqueue_pen _ => true
  | .enqueue_move _ _ _ => true
  | .enqueue_dwell _ => true
  | .enable _ _ => true
  | .reset_axes => true
  | .set_jog _ _ _ => true
  | .set_echo _ => true
  | _ => false

/-- A call on the motion interface (query or mutation). -/
def Call.onMotion : Call → Bool
  | .queue_ready => true
  | .queue_done => true
  | .get_axis_position _ => true
  | .enqueue_pen _ => true
  | .enqueue_move _ _ _ => true
  | .enqueue_dwell _ => true
  | .enable _ _ => true
  | .reset_axes => true
  | .set_jog _ _ _ => true
  | _ => false

/-- Entry into one of the two handlers. -/
def Call.isHandler : Call → Bool
  | .handle_mcode => true
  | .handle_gcode => true
  | _ => false

/-- The lines written with `UART::write_string`, in order. -/
def writes : List Call → List String
  | [] => []
  | .write_string s :: t => s :: writes t
  | _ :: t => writes t

/-- The state after a logged run, for any reading `step` of the mutating
operations on any state type: only mutating calls act on the state. -/
def replay {σ : Type} (step : σ → Call → σ) (s : σ) (t : List Call) : σ :=
  t.foldl (fun a e => if e.mutating then step a e else a) s

/-- The local `const uint8_t v = cmd().code().value;` of both handlers. -/
def uint8 (n : Nat) : Nat := n % 256

/-- The first loop of the `case 17: case 18:` block, over the axes in `is`:
`if (cmd()[i] != 0) { motion::enable(i, en); all = false; }`.  The state is
the log so far and the flag `all`. -/
def enable_selected (c : Command) (en : Bool) (is : List Nat) : List Call × Bool :=
  is.foldl (fun st i => if (c.param i).neZero then (st.1 ++ [Call.enable i en], false) else st)
    ([], true)

/-- The second loop: `for (int i = 0; i < 3; i++) motion::enable(i, en);`. -/
def enable_all (en : Bool) : List Call :=
  (List.range 3).map (fun i => Call.enable i en)

/-- The function `handle_mcode` of `Main.cc`: the log of its calls and its result. -/
def handle_mcode (h : Headers) (c : Command) (m : Motion) : List Call × ResultCode :=
  let v := uint8 c.value
  if v = 3 ∨ v = 4 then
    if !m.queue_ready then ([Call.queue_ready], ResultCode.RC_FULL)
    else ([Call.queue_ready, Call.enqueue_pen (v == 4)], ResultCode.RC_OK)
  else if v = 230 ∨ v = 231 then
    ([Call.set_echo (v == 230)], ResultCode.RC_OK)
  else if v = 17 ∨ v = 18 then
    let en := v == 17
    let st := enable_selected c en (List.range 3)
    (if st.2 then st.1 ++ enable_all en else st.1, ResultCode.RC_OK)
  else if v = 114 then
    let x := m.get_axis_position h.motionX
    let y := m.get_axis_position h.motionY
    ([Call.get_axis_position h.motionX, Call.get_axis_position h.motionY,
      Call.write_string (h.sprintf x y)], ResultCode.RC_OK)
  else if v = 115 then
    if m.queue_done then ([Call.queue_done], ResultCode.RC_OK)
    else ([Call.queue_done], ResultCode.RC_FULL)
  else
    ([], ResultCode.RC_ERR)

/-- The expression
`cmd().has_param(F)?cmd()[F]:(v==0?DEFAULT_G0_FEEDRATE:DEFAULT_G1_FEEDRATE)`
that both the move case and the jog case of `handle_gcode` evaluate. -/
def feedrate (h : Headers) (c : Command) (v : Nat) : Val :=
  if c.has_param h.F then c.param h.F
  else if v = 0 then h.DEFAULT_G0_FEEDRATE else h.DEFAULT_G1_FEEDRATE

/-- The function `handle_gcode` of `Main.cc`: the log of its calls and its result. -/
def handle_gcode (h : Headers) (c : Command) (m : Motion) : List Call × ResultCode :=
  let v := uint8 c.value
  if v = 1 ∨ v = 0 then
    if !m.queue_ready then ([Call.queue_ready], ResultCode.RC_FULL)
    else ([Call.queue_ready,
           Call.enqueue_move (c.param h.X) (c.param h.Y) (feedrate h c v)], ResultCode.RC_OK)
  else if v = 4 then
    if !m.queue_ready then ([Call.queue_ready], ResultCode.RC_FULL)
    else ([Call.queue_ready, Call.enqueue_dwell (c.param h.P)], ResultCode.RC_OK)
  else if v = 92 then
    ([Call.reset_axes], ResultCode.RC_OK)
  else if v = 100 then
    ([Call.set_jog (c.param h.X) (c.param h.Y) (feedrate h c v)], ResultCode.RC_OK)
  else if v = 101 then
    ([Call.set_jog (Val.num 0) (Val.num 0) (Val.num 0)], ResultCode.RC_OK)
  else
    ([], ResultCode.RC_ERR)

/-- The first `switch` of the loop body: `result` starts as `RC_ERR` and is
replaced by the handler selected by `cmd().code().code`. -/
def dispatch (h : Headers) (c : Command) (m : Motion) : List Call × ResultCode :=
  if c.code = 'M' then
    (Call.handle_mcode :: (handle_mcode h c m).1, (handle_mcode h c m).2)
  else if c.code = 'G' then
    (Call.handle_gcode :: (handle_gcode h c m).1, (handle_gcode h c m).2)
  else
    ([], ResultCode.RC_ERR)

/-- The second `switch` of the loop body: the text written for a result. -/
def reply : ResultCode → String
  | .RC_OK => "ok"
  | .RC_FULL => "full"
  | .RC_ERR => "err"

/-- One pass through the body of `while (1)`: `line` is the answer of
`check_for_command()`, `c` the command it left in `cmd()`, `m` the answers of
the motion subsystem during the pass. -/
def loop_body (h : Headers) (line : Bool) (c : Command) (m : Motion) : List Call :=
  Call.wdt_reset :: Call.check_for_command ::
    (if line then
      (if !c.is_ok then [Call.write_string "err [parse]"]
       else (dispatch h c m).1 ++ [Call.write_string (reply (dispatch h c m).2)])
        ++ [Call.cmd_reset]
     else [])

/-- What one pass of the loop meets: whether a line is available, the command
parsed from it, and the answers of the motion subsystem. -/
structure Pass where
  line : Bool
  cmd : Command
  motion : Motion

/-- The log of the loop over a finite run of passes. -/
def main_loop (h : Headers) : List Pass → List Call
  | [] => []
  | p :: ps => loop_body h p.line p.cmd p.motion ++ main_loop h ps

/-- A command with the given code and a finite list of present parameters
`(index, value)`; an absent parameter reads as `0`. -/
def mkCommand (code : Char) (value : Nat) (ps : List (Nat × Val)) : Command where
  is_ok := true
  code := code
  value := value
  has_param := fun i => (ps.lookup i).isSome
  param := fun i => (ps.lookup i).getD (Val.num 0)

/-- A concrete set of header values used in the examples. -/
def hdr : Headers where
  X := 0
  Y := 1
  F := 3
  P := 4
  DEFAULT_G0_FEEDRATE := Val.num 100
  DEFAULT_G1_FEEDRATE := Val.num 50
  motionX := 0
  motionY := 1
  sprintf := fun _ _ => "X: 0.00 Y: 0.00"

/-- Motion answers with the given readiness and drain flags, all axes at `0`. -/
def mot (ready done : Bool) : Motion where
  queue_ready := ready
  queue_done := done
  get_axis_position := fun _ => Val.num 0

/-- The commands the specification lists as recognised: M3, M4, M17, M18,
M114, M115, M230, M231 and G0, G1, G4, G92, G100, G101. -/
def recognised (code : Char) (n : Nat) : Bool :=
  (code == 'M' && [3, 4, 17, 18, 114, 115, 230, 231].contains n) ||
  (code == 'G' && [0, 1, 4, 92, 100, 101].contains n)

/-- A command whose line failed to parse: `is_ok()` is false. -/
def garbled : Command where
  is_ok := false
  code := 'G'
  value := 1
  has_param := fun _ => false
  param := fun _ => Val.num 0

/-- The calls a handler body can make: motion-interface calls, `set_echo` and
`UART::write_string`. -/
def Call.inHandler : Call → Bool
  | .set_echo _ => true
  | .write_string _ => true
  | e => e.onMotion

/-- The three calls that put an event on the motion queue. -/
def Call.isEnqueue : Call → Bool
  | .enqueue_pen _ => true
  | .enqueue_move _ _ _ => true
  | .enqueue_dwell _ => true
  | _ => false

/-- Modelled from the spec: the host-echo flag kept behind `set_echo`, whose
definition is not part of the sources.  `set_echo(b)` stores `b` in the flag;
no other call touches it. -/
def echo_after (flag : Bool) : List Call → Bool
  | [] => flag
  | .set_echo b :: t => echo_after b t
  | _ :: t => echo_after flag t

/-- The result the two `switch` statements select, read off the code letter,
the `uint8_t` code and the two queue answers alone. -/
def result_of (code : Char) (v : Nat) (ready done : Bool) : ResultCode :=
  if code = 'M' then
    if v = 3 ∨ v = 4 then (if ready then ResultCode.RC_OK else ResultCode.RC_FULL)
    else if v = 230 ∨ v = 231 ∨ v = 17 ∨ v = 18 ∨ v = 114 then ResultCode.RC_OK
    else if v = 115 then (if done then ResultCode.RC_OK else ResultCode.RC_FULL)
    else ResultCode.RC_ERR
  else if code = 'G' then
    if v = 0 ∨ v = 1 ∨ v = 4 then (if ready then ResultCode.RC_OK else ResultCode.RC_FULL)
    else if v = 92 ∨ v = 100 ∨ v = 101 then ResultCode.RC_OK
    else ResultCode.RC_ERR
  else ResultCode.RC_ERR

/-! ### Startup: `reset`, `init_timers` and the head of `main` -/

/-- The output pins `main` sets up first. -/
inductive Pin where
  | INTERFACE_POWER
  | INTERFACE_LED_ONE
  | INTERFACE_LED_TWO
  deriving DecidableEq

/-- The two digital-pot pins passed to `motion::setPotValue`. -/
inductive Pot where
  | X_POT_PIN
  | Y_POT_PIN
  deriving DecidableEq

/-- The I/O registers `Main.cc` writes. -/
inductive Reg where
  | MCUSR
  | TCCR5A
  | TCCR5B
  | OCR5A
  | TIMSK5
  deriving DecidableEq

/-- One step of the straight-line code of `reset`, `init_timers` and `main`,
in program order.  `atomic_begin` and `atomic_end_forceon` are entry to and
exit from `ATOMIC_BLOCK(ATOMIC_FORCEON)`: the block disables interrupts on
entry and, with `ATOMIC_FORCEON`, sets the global interrupt flag on exit
whatever it was before.  `call` is a call of the loop (`Call`). -/
inductive Step where
  | setDirection (p : Pin) (out : Bool)
  | setValue (p : Pin) (v : Bool)
  | i2c_init
  | atomic_begin
  | atomic_end_forceon
  | wdt_disable
  | wdt_enable (timeout : Nat)
  | assign (r : Reg) (v : Nat)
  | or_assign (r : Reg) (v : Nat)
  | motion_init
  | setPotValue (p : Pot) (v : Nat)
  | sei
  | ButtonArray_init
  | lcd_begin
  | lcd_clear
  | lcd_home
  | lcd_setCursor (col row : Nat)
  | UART_initialize
  | call (c : Call)
  deriving DecidableEq

/-- The constant `WDTO_8S` of `<avr/wdt.h>`. -/
def WDTO_8S : Nat := 9

/-- The bit number `OCIE5A` of `TIMSK5` in `<avr/io.h>`. -/
def OCIE5A : Nat := 1

/-- The function `reset` of `Main.cc`. -/
def reset (hard_reset : Bool) : List Step :=
  [Step.atomic_begin] ++
    (if hard_reset then
      [Step.wdt_disable, Step.assign Reg.MCUSR 0x0, Step.wdt_enable WDTO_8S]
     else []) ++
  [Step.atomic_end_forceon]

/-- The function `init_timers` of `Main.cc`. -/
def init_timers : List Step :=
  [Step.assign Reg.TCCR5A 0x00,
   Step.assign Reg.TCCR5B 0x0A,
   Step.assign Reg.OCR5A 0x0c8,
   Step.or_assign Reg.TIMSK5 (1 <<< OCIE5A)]

/-- The part of `main` before `while (1)`.  The arguments of `lcd.begin` are
configuration constants and are not recorded. -/
def startup : List Step :=
  [Step.setDirection Pin.INTERFACE_POWER true,
   Step.setValue Pin.INTERFACE_POWER false,
   Step.setDirection Pin.INTERFACE_LED_ONE true,
   Step.setDirection Pin.INTERFACE_LED_TWO true,
   Step.setValue Pin.INTERFACE_LED_ONE true,
   Step.setValue Pin.INTERFACE_LED_TWO true,
   Step.i2c_init] ++
  reset true ++
  [Step.motion_init,
   Step.setPotValue Pot.X_POT_PIN 40,
   Step.setPotValue Pot.Y_POT_PIN 80] ++
  init_timers ++
  [Step.sei,
   Step.ButtonArray_init,
   Step.lcd_begin,
   Step.lcd_clear,
   Step.lcd_home,
   Step.lcd_setCursor 0 0,
   Step.UART_initialize,
   Step.call (Call.write_string "Ready.")]

/-- The function `main`: the startup steps, then the loop over a run of passes. -/
def main_program (h : Headers) (ps : List Pass) : List Step :=
  startup ++ (main_loop h ps).map Step.call

/-- The global interrupt flag after a run of steps that starts with the flag
at `flag`: cleared on entry to an atomic block, set on exit from an
`ATOMIC_FORCEON` block and by `sei()`. -/
def interrupts (flag : Bool) : List Step → Bool
  | [] => flag
  | .atomic_begin :: t => interrupts false t
  | .atomic_end_forceon :: t => interrupts true t
  | .sei :: t => interrupts true t
  | _ :: t => interrupts flag t

/-- The last value assigned to register `r` in a run of steps, if any. -/
def assigned (r : Reg) : List Step → Option Nat
  | [] => none
  | .assign r1 v :: t => match assigned r t with
    | some w => some w
    | none => if r1 = r then some v else none
  | _ :: t => assigned r t

/-- The clock-select bits CS52:0 of a `TCCR5B` value (bits 2..0). -/
def clock_select (tccrb : Nat) : Nat := tccrb % 8

/-- The waveform bits WGM53:2 of a `TCCR5B` value (bits 4..3). -/
def waveform_high (tccrb : Nat) : Nat := (tccrb / 8) % 4

/-- The prescaler a clock-select value stands for, as the comment of
`init_timers` reads it (`CS = 010 -- prescaler is CLK/8`): 1, 8, 64, 256, 1024
for 1..5; 0 stops the timer and 6, 7 select an external clock. -/
def prescaler : Nat → Option Nat
  | 1 => some 1
  | 2 => some 8
  | 3 => some 64
  | 4 => some 256
  | 5 => some 1024
  | _ => none

/-- One tick of the prescaled clock on the counter of timer 5 in CTC mode, as
the comment of `init_timers` describes the mode: "count up from 0 to OCR5A and
then reset to 0".  The compare match, and with it the interrupt, comes when
the counter holds `ocr`. -/
def ctc_tick (ocr cnt : Nat) : Nat :=
  if cnt = ocr then 0 else cnt + 1

/-- The number of prescaled clock ticks from one compare match to the next:
the counter passes through `0, 1, ..., ocr`. -/
def ctc_period (ocr : Nat) : Nat := ocr + 1

/-- The whole number of compare matches per second that the register values
written by `steps` give at a clock of `f_cpu` Hz: the clock divided by the
prescaler and by the period of the counter. -/
def timer_rate (f_cpu : Nat) (steps : List Step) : Option Nat :=
  match assigned Reg.TCCR5B steps, assigned Reg.OCR5A steps with
  | some b, some ocr => (prescaler (clock_select b)).map (fun p => f_cpu / p / ctc_period ocr)
  | _, _ => none

/-! ### The text of the position report -/

/-- The decimal digits of a natural number. -/
def decimal (n : Nat) : String := String.mk (Nat.toDigits 10 n)

/-- The text the C conversion `%.2f` gives for a value (libc, not part of the
sources): fixed notation, the magnitude rounded to two decimals, a leading
`-` when the sign is negative; `inf` and `nan` for the non-finite values. -/
def fmt2f : Val → String
  | .num q =>
    let cents := (2 * q.num.natAbs * 100 + q.den) / (2 * q.den)
    (if q.num < 0 then "-" else "") ++ decimal (cents / 100) ++ "." ++
      decimal (cents % 100 / 10) ++ decimal (cents % 10)
  | .negZero => "-0.00"
  | .inf neg => if neg then "-inf" else "inf"
  | .nan => "nan"

/-- The text `sprintf(buf, "X: %.2f Y: %.2f", x, y)` leaves in `buf`. -/
def sprintf_pos (x y : Val) : String :=
  "X: " ++ fmt2f x ++ " Y: " ++ fmt2f y

/-- The size of `char buf[40]` in the position report of `handle_mcode`. -/
def BUF_SIZE : Nat := 40

/-- Header values with the C formatting of the position report. -/
def hdr_c : Headers where
  X := 0
  Y := 1
  F := 3
  P := 4
  DEFAULT_G0_FEEDRATE := Val.num 100
  DEFAULT_G1_FEEDRATE := Val.num 50
  motionX := 0
  motionY := 1
  sprintf := sprintf_pos

/-- Motion answers with every axis at position `x`. -/
def mot_at (x : Val) : Motion where
  queue_ready := true
  queue_done := true
  get_axis_position := fun _ => x

/-! ## Queue-gated commands -/

/-- C1: for each queue-gated command (M3, M4, G0, G1, G4), for every parameter
mapping and every motion state in which `queue_ready()` is false, the handler
(and the dispatch that selects it by code letter) returns `RC_FULL`. -/
theorem queue_gated_not_ready_full (h : Headers) (c : Command) (m : Motion)
    (hq : m.queue_ready = false) :
    ((c.value = 3 ∨ c.value = 4) → (handle_mcode h c m).2 = ResultCode.RC_FULL) ∧
    ((c.value = 0 ∨ c.value = 1 ∨ c.value = 4) →
      (handle_gcode h c m).2 = ResultCode.RC_FULL) ∧
    ((c.code = 'M' ∧ (c.value = 3 ∨ c.value = 4)) ∨
      (c.code = 'G' ∧ (c.value = 0 ∨ c.value = 1 ∨ c.value = 4)) →
      (dispatch h c m).2 = ResultCode.RC_FULL) := by
  have hM : (c.value = 3 ∨ c.value = 4) → (handle_mcode h c m).2 = ResultCode.RC_FULL := by
    rintro (hv | hv) <;> simp [handle_mcode, uint8, hv, hq]
  have hG : (c.value = 0 ∨ c.value = 1 ∨ c.value = 4) →
      (handle_gcode h c m).2 = ResultCode.RC_FULL := by
    rintro (hv | hv | hv) <;> simp [handle_gcode, uint8, hv, hq]
  refine ⟨hM, hG, ?_⟩
  rintro (⟨hc, hv⟩ | ⟨hc, hv⟩)
  · simp [dispatch, hc, hM hv]
  · simp [dispatch, hc, hG hv]

/-- Witness for C1: `G0 X1 Y1` and `M3` with the queue not ready. -/
theorem queue_gated_not_ready_full_witness :
    (mot false true).queue_ready = false ∧
    (dispatch hdr (mkCommand 'G' 0 [(0, Val.num 1), (1, Val.num 1)]) (mot false true)).2
      = ResultCode.RC_FULL ∧
    (handle_mcode hdr (mkCommand 'M' 3 []) (mot false true)).2 = ResultCode.RC_FULL :=
  ⟨rfl,
   (queue_gated_not_ready_full hdr (mkCommand 'G' 0 [(0, Val.num 1), (1, Val.num 1)])
      (mot false true) rfl).2.2 (Or.inr ⟨rfl, Or.inl rfl⟩),
   (queue_gated_not_ready_full hdr (mkCommand 'M' 3 []) (mot false true) rfl).1 (Or.inl rfl)⟩

/-- When `handle_mcode` returns `RC_FULL` it has made a single query. -/
theorem handle_mcode_full (h : Headers) (c : Command) (m : Motion)
    (hf : (handle_mcode h c m).2 = ResultCode.RC_FULL) :
    (handle_mcode h c m).1 = [Call.queue_ready] ∨ (handle_mcode h c m).1 = [Call.queue_done] := by
  unfold handle_mcode at hf ⊢
  simp only at hf ⊢
  split_ifs at hf ⊢ <;> simp_all

/-- When `handle_gcode` returns `RC_FULL` it has made a single query. -/
theorem handle_gcode_full (h : Headers) (c : Command) (m : Motion)
    (hf : (handle_gcode h c m).2 = ResultCode.RC_FULL) :
    (handle_gcode h c m).1 = [Call.queue_ready] := by
  unfold handle_gcode at hf ⊢
  simp only at hf ⊢
  split_ifs at hf ⊢ <;> simp_all

/-- When the dispatch returns `RC_FULL` its log is the handler entry followed
by a single query. -/
theorem dispatch_full (h : Headers) (c : Command) (m : Motion)
    (hf : (dispatch h c m).2 = ResultCode.RC_FULL) :
    (dispatch h c m).1 = [Call.handle_mcode, Call.queue_ready] ∨
    (dispatch h c m).1 = [Call.handle_mcode, Call.queue_done] ∨
    (dispatch h c m).1 = [Call.handle_gcode, Call.queue_ready] := by
  unfold dispatch at hf ⊢
  split_ifs at hf ⊢
  · rcases handle_mcode_full h c m hf with h1 | h1 <;> simp [h1]
  · simp [handle_gcode_full h c m hf]

/-- C2: for every command and every motion state, if the dispatch returns
`RC_FULL` then no mutating collaborator operation was invoked and nothing was
written to the transport: the log holds only the handler entry and one
read-only query, so the state after replaying it, under any reading of the
mutating operations, is the state before. -/
theorem full_has_no_effect (h : Headers) (c : Command) (m : Motion)
    (hf : (dispatch h c m).2 = ResultCode.RC_FULL) :
    (∀ e ∈ (dispatch h c m).1, e.mutating = false) ∧
    writes (dispatch h c m).1 = [] ∧
    (∀ e ∈ (dispatch h c m).1,
      e.isHandler = true ∨ e = Call.queue_ready ∨ e = Call.queue_done) ∧
    (∀ (σ : Type) (step : σ → Call → σ) (s : σ), replay step s (dispatch h c m).1 = s) := by
  rcases dispatch_full h c m hf with h1 | h1 | h1 <;>
    simp [h1, writes, replay, Call.mutating, Call.isHandler]

/-- Witness for C2: `M115` while the queue is not drained. -/
theorem full_has_no_effect_witness :
    (dispatch hdr (mkCommand 'M' 115 []) (mot true false)).2 = ResultCode.RC_FULL ∧
    writes (dispatch hdr (mkCommand 'M' 115 []) (mot true false)).1 = [] ∧
    (∀ (σ : Type) (step : σ → Call → σ) (s : σ),
      replay step s (dispatch hdr (mkCommand 'M' 115 []) (mot true false)).1 = s) :=
  ⟨by decide,
   (full_has_no_effect hdr (mkCommand 'M' 115 []) (mot true false) (by decide)).2.1,
   (full_has_no_effect hdr (mkCommand 'M' 115 []) (mot true false) (by decide)).2.2.2⟩

/-- C3: for G0 and G1 with the queue ready, `handle_gcode` checks readiness,
invokes `enqueue_move` exactly once with the X and Y parameter values and a
feedrate that is the F parameter when F is present and otherwise the default
of the code (`DEFAULT_G0_FEEDRATE` for 0, `DEFAULT_G1_FEEDRATE` for 1), invokes
nothing else and returns `RC_OK`. -/
theorem move_enqueues_once (h : Headers) (c : Command) (m : Motion)
    (hv : c.value = 0 ∨ c.value = 1) (hr : m.queue_ready = true) :
    ∃ f : Val,
      handle_gcode h c m =
        ([Call.queue_ready, Call.enqueue_move (c.param h.X) (c.param h.Y) f],
          ResultCode.RC_OK) ∧
      (handle_gcode h c m).1.filter Call.mutating =
        [Call.enqueue_move (c.param h.X) (c.param h.Y) f] ∧
      (c.has_param h.F = true → f = c.param h.F) ∧
      (c.has_param h.F = false → c.value = 0 → f = h.DEFAULT_G0_FEEDRATE) ∧
      (c.has_param h.F = false → c.value = 1 → f = h.DEFAULT_G1_FEEDRATE) := by
  refine ⟨feedrate h c (uint8 c.value), ?_, ?_, ?_, ?_, ?_⟩
  · rcases hv with hv | hv <;> simp [handle_gcode, uint8, hv, hr]
  · rcases hv with hv | hv <;> simp [handle_gcode, uint8, hv, hr, Call.mutating]
  · intro hF; simp [feedrate, hF]
  · intro hF h0; simp [feedrate, hF, h0, uint8]
  · intro hF h1; simp [feedrate, hF, h1, uint8]

/-- Witness for C3: `G1 X10 Y5` enqueues `(10, 5, DEFAULT_G1_FEEDRATE)` and
`G1 X10 Y5 F200` enqueues `(10, 5, 200)`. -/
theorem move_enqueues_once_witness :
    (mkCommand 'G' 1 [(0, Val.num 10), (1, Val.num 5)]).value = 1 ∧
    (mot true true).queue_ready = true ∧
    handle_gcode hdr (mkCommand 'G' 1 [(0, Val.num 10), (1, Val.num 5)]) (mot true true) =
      ([Call.queue_ready,
        Call.enqueue_move (Val.num 10) (Val.num 5) hdr.DEFAULT_G1_FEEDRATE],
        ResultCode.RC_OK) ∧
    handle_gcode hdr (mkCommand 'G' 1 [(0, Val.num 10), (1, Val.num 5), (3, Val.num 200)])
        (mot true true) =
      ([Call.queue_ready, Call.enqueue_move (Val.num 10) (Val.num 5) (Val.num 200)],
        ResultCode.RC_OK) := by
  refine ⟨rfl, rfl, ?_, ?_⟩
  · obtain ⟨f, h1, _, _, _, h5⟩ :=
      move_enqueues_once hdr (mkCommand 'G' 1 [(0, Val.num 10), (1, Val.num 5)])
        (mot true true) (Or.inr rfl) rfl
    rw [h1, h5 (by decide) rfl]
    rfl
  · obtain ⟨f, h1, _, h3, _, _⟩ :=
      move_enqueues_once hdr
        (mkCommand 'G' 1 [(0, Val.num 10), (1, Val.num 5), (3, Val.num 200)])
        (mot true true) (Or.inr rfl) rfl
    rw [h1, h3 (by decide)]
    rfl

/-! ## Axis enable and disable -/

/-- The log of the first loop of the M17/M18 block over the axes `0, 1, 2`:
one `enable` per axis whose selector value is nonzero, in increasing order,
and `all` is left true exactly when there is none. -/
theorem enable_selected_range (c : Command) (en : Bool) :
    enable_selected c en (List.range 3) =
      (((List.range 3).filter (fun i => (c.param i).neZero)).map (fun i => Call.enable i en),
        !((c.param 0).neZero || (c.param 1).neZero || (c.param 2).neZero)) := by
  have hr : List.range 3 = [0, 1, 2] := by decide
  rw [hr]
  cases h0 : (c.param 0).neZero <;> cases h1 : (c.param 1).neZero <;>
    cases h2 : (c.param 2).neZero <;>
    simp [enable_selected, List.filter, h0, h1, h2]

/-- Counterexample to C4 as stated: in `M17 X0` the selector X is present (with
value 0) and Y, Z are absent, yet axes 1 and 2 are enabled; in `M17 X0 Y1` the
selector X is present, yet axis 0 is not enabled. -/
theorem enable_present_zero_selector :
    (mkCommand 'M' 17 [(0, Val.num 0)]).has_param 0 = true ∧
    (mkCommand 'M' 17 [(0, Val.num 0)]).has_param 1 = false ∧
    (mkCommand 'M' 17 [(0, Val.num 0)]).has_param 2 = false ∧
    (handle_mcode hdr (mkCommand 'M' 17 [(0, Val.num 0)]) (mot true true)).1 =
      [Call.enable 0 true, Call.enable 1 true, Call.enable 2 true] ∧
    (mkCommand 'M' 17 [(0, Val.num 0), (1, Val.num 1)]).has_param 0 = true ∧
    (handle_mcode hdr (mkCommand 'M' 17 [(0, Val.num 0), (1, Val.num 1)]) (mot true true)).1 =
      [Call.enable 1 true] := by
  decide

/-- C4 (amended): for M17 (`en = true`) and M18 (`en = false`) the result is
`RC_OK`; if no axis selector among 0..2 has a nonzero value (in particular if
none is present and absent selectors read as 0), `enable(i, en)` is applied to
all three axes; otherwise it is applied to exactly the axes whose selector
value is nonzero, in increasing order, and to no other axis. -/
theorem enable_by_nonzero_selector (h : Headers) (c : Command) (m : Motion)
    (hv : c.value = 17 ∨ c.value = 18) :
    (handle_mcode h c m).2 = ResultCode.RC_OK ∧
    ((∀ i, i < 3 → (c.param i).neZero = false) →
      (handle_mcode h c m).1 =
        [Call.enable 0 (decide (c.value = 17)), Call.enable 1 (decide (c.value = 17)),
         Call.enable 2 (decide (c.value = 17))]) ∧
    ((∃ i, i < 3 ∧ (c.param i).neZero = true) →
      (handle_mcode h c m).1 =
        ((List.range 3).filter (fun i => (c.param i).neZero)).map
          (fun i => Call.enable i (decide (c.value = 17)))) ∧
    ((∀ i, i < 3 → c.has_param i = false) →
      (∀ i, c.has_param i = false → c.param i = Val.num 0) →
      (handle_mcode h c m).1 =
        [Call.enable 0 (decide (c.value = 17)), Call.enable 1 (decide (c.value = 17)),
         Call.enable 2 (decide (c.value = 17))]) := by
  have hlog : (handle_mcode h c m) =
      (if (enable_selected c (decide (c.value = 17)) (List.range 3)).2 then
          (enable_selected c (decide (c.value = 17)) (List.range 3)).1 ++
            enable_all (decide (c.value = 17))
        else (enable_selected c (decide (c.value = 17)) (List.range 3)).1,
        ResultCode.RC_OK) := by
    rcases hv with hv | hv <;> simp [handle_mcode, uint8, hv]
  have hall : (∀ i, i < 3 → (c.param i).neZero = false) →
      (handle_mcode h c m).1 =
        [Call.enable 0 (decide (c.value = 17)), Call.enable 1 (decide (c.value = 17)),
         Call.enable 2 (decide (c.value = 17))] := by
    intro hz
    have h0 := hz 0 (by decide)
    have h1 := hz 1 (by decide)
    have h2 := hz 2 (by decide)
    have hr : List.range 3 = [0, 1, 2] := by decide
    rw [hlog, enable_selected_range]
    simp [h0, h1, h2, enable_all, hr, List.filter]
  refine ⟨by rw [hlog], hall, ?_, ?_⟩
  · rintro ⟨i, hi, hne⟩
    rw [hlog, enable_selected_range]
    have hsome : ((c.param 0).neZero || (c.param 1).neZero || (c.param 2).neZero) = true := by
      interval_cases i <;> simp [hne]
    simp [hsome]
  · intro hp hz
    apply hall
    intro i hi
    rw [hz i (hp i hi)]
    decide

/-- Witness for C4 (amended): `M17` enables all axes, `M17 X1` only axis 0 (X). -/
theorem enable_by_nonzero_selector_witness :
    (mkCommand 'M' 17 []).value = 17 ∧
    (handle_mcode hdr (mkCommand 'M' 17 []) (mot true true)).1 =
      [Call.enable 0 true, Call.enable 1 true, Call.enable 2 true] ∧
    (handle_mcode hdr (mkCommand 'M' 17 [(0, Val.num 1)]) (mot true true)).1 =
      [Call.enable 0 true] ∧
    (handle_mcode hdr (mkCommand 'M' 17 [(0, Val.num 1)]) (mot true true)).2 =
      ResultCode.RC_OK := by
  refine ⟨rfl, ?_, ?_, ?_⟩
  · exact (enable_by_nonzero_selector hdr (mkCommand 'M' 17 []) (mot true true)
      (Or.inl rfl)).2.2.2 (fun _ _ => rfl) (fun _ _ => rfl)
  · have := (enable_by_nonzero_selector hdr (mkCommand 'M' 17 [(0, Val.num 1)]) (mot true true)
      (Or.inl rfl)).2.2.1 ⟨0, by decide, by decide⟩
    rw [this]
    decide
  · exact (enable_by_nonzero_selector hdr (mkCommand 'M' 17 [(0, Val.num 1)]) (mot true true)
      (Or.inl rfl)).1

/-! ## Unknown codes -/

/-- When the code letter together with the code held by the `uint8_t` local is
not a recognised command, the dispatch returns `RC_ERR` and its log is empty
or holds only the entry into the handler; the loop then replies `err`. -/
theorem unknown_code_is_error (h : Headers) (c : Command) (m : Motion)
    (hu : recognised c.code (uint8 c.value) = false) :
    (dispatch h c m).2 = ResultCode.RC_ERR ∧
    ((dispatch h c m).1 = [] ∨ (dispatch h c m).1 = [Call.handle_mcode] ∨
      (dispatch h c m).1 = [Call.handle_gcode]) ∧
    (c.code ≠ 'M' → c.code ≠ 'G' → (dispatch h c m).1 = []) ∧
    (∀ e ∈ (dispatch h c m).1, e.onMotion = false ∧ e.mutating = false) ∧
    (c.is_ok = true → writes (loop_body h true c m) = ["err"]) := by
  have key : dispatch h c m = ([], ResultCode.RC_ERR) ∨
      dispatch h c m = ([Call.handle_mcode], ResultCode.RC_ERR) ∨
      dispatch h c m = ([Call.handle_gcode], ResultCode.RC_ERR) := by
    unfold dispatch
    split_ifs with hM hG
    · right; left
      simp [recognised, hM] at hu
      simp [handle_mcode, hu]
    · right; right
      simp [recognised, hG] at hu
      simp [handle_gcode, hu]
    · left; rfl
  refine ⟨?_, ?_, ?_, ?_, ?_⟩
  · rcases key with k | k | k <;> rw [k]
  · rcases key with k | k | k <;> simp [k]
  · intro hM hG
    simp [dispatch, hM, hG]
  · rcases key with k | k | k <;> simp [k, Call.onMotion, Call.mutating]
  · intro hok
    rcases key with k | k | k <;> simp [loop_body, hok, k, writes, reply]

/-- Examples of unknown codes: `T7` (unknown letter) and `G5` (unknown number). -/
theorem unknown_code_is_error_witness :
    recognised 'T' (uint8 7) = false ∧
    dispatch hdr (mkCommand 'T' 7 []) (mot true true) = ([], ResultCode.RC_ERR) ∧
    recognised 'G' (uint8 5) = false ∧
    (dispatch hdr (mkCommand 'G' 5 []) (mot true true)).2 = ResultCode.RC_ERR := by
  refine ⟨by decide, ?_, by decide, ?_⟩
  · have hw := unknown_code_is_error hdr (mkCommand 'T' 7 []) (mot true true) (by decide)
    exact Prod.ext (hw.2.2.1 (by decide) (by decide)) hw.1
  · exact (unknown_code_is_error hdr (mkCommand 'G' 5 []) (mot true true) (by decide)).1

/-- C6: for M3 and M4 with the queue ready, `handle_mcode` checks readiness,
invokes `enqueue_pen` exactly once and nothing else, and returns `RC_OK`; the
argument is `false` (down) for code 3 and `true` (up) for code 4, whatever the
parameters. -/
theorem pen_enqueues_once (h : Headers) (c : Command) (m : Motion)
    (hv : c.value = 3 ∨ c.value = 4) (hr : m.queue_ready = true) :
    handle_mcode h c m =
      ([Call.queue_ready, Call.enqueue_pen (decide (c.value = 4))], ResultCode.RC_OK) ∧
    (handle_mcode h c m).1.filter Call.mutating = [Call.enqueue_pen (decide (c.value = 4))] ∧
    (c.value = 3 → (handle_mcode h c m).1 = [Call.queue_ready, Call.enqueue_pen false]) ∧
    (c.value = 4 → (handle_mcode h c m).1 = [Call.queue_ready, Call.enqueue_pen true]) := by
  rcases hv with hv | hv <;> simp [handle_mcode, uint8, hv, hr, Call.mutating]

/-- Witness for C6: `M3` enqueues pen down, `M4` enqueues pen up. -/
theorem pen_enqueues_once_witness :
    (mkCommand 'M' 3 []).value = 3 ∧ (mot true true).queue_ready = true ∧
    (handle_mcode hdr (mkCommand 'M' 3 []) (mot true true)).1 =
      [Call.queue_ready, Call.enqueue_pen false] ∧
    (handle_mcode hdr (mkCommand 'M' 4 []) (mot true true)).1 =
      [Call.queue_ready, Call.enqueue_pen true] :=
  ⟨rfl, rfl,
   (pen_enqueues_once hdr (mkCommand 'M' 3 []) (mot true true) (Or.inl rfl) rfl).2.2.1 rfl,
   (pen_enqueues_once hdr (mkCommand 'M' 4 []) (mot true true) (Or.inr rfl) rfl).2.2.2 rfl⟩

/-! ## The log of the handlers and of the loop body -/

/-- The lines written distribute over concatenation of logs. -/
theorem writes_append (a b : List Call) : writes (a ++ b) = writes a ++ writes b := by
  induction a with
  | nil => rfl
  | cons e t ih => cases e <;> simp [writes, ih]

/-- A log whose calls all differ from `write_string` writes nothing. -/
theorem writes_enable_map (is : List Nat) (en : Bool) :
    writes (is.map (fun i => Call.enable i en)) = [] := by
  induction is with
  | nil => rfl
  | cons i t ih => simpa [writes] using ih

/-- Every call logged by `handle_mcode` is a handler-body call. -/
theorem handle_mcode_calls (h : Headers) (c : Command) (m : Motion) :
    ∀ e ∈ (handle_mcode h c m).1, e.inHandler = true := by
  have hen : ∀ (is : List Nat) (en : Bool),
      ∀ e ∈ is.map (fun i => Call.enable i en), e.inHandler = true := by
    intro is en e he
    obtain ⟨i, _, rfl⟩ := List.mem_map.1 he
    rfl
  simp only [handle_mcode, enable_selected_range, enable_all]
  split_ifs
  all_goals first
    | (intro e he
       rcases List.mem_append.1 he with he | he
       · exact hen _ _ e he
       · exact hen _ _ e he)
    | exact hen _ _
    | simp [Call.inHandler, Call.onMotion]

/-- Every call logged by `handle_gcode` is a motion-interface call. -/
theorem handle_gcode_calls (h : Headers) (c : Command) (m : Motion) :
    ∀ e ∈ (handle_gcode h c m).1, e.inHandler = true := by
  simp only [handle_gcode]
  split_ifs <;> simp [Call.inHandler, Call.onMotion]

/-- The lines `handle_mcode` writes: the position text for code 114, nothing
for any other code. -/
theorem handle_mcode_writes (h : Headers) (c : Command) (m : Motion) :
    writes (handle_mcode h c m).1 =
      if uint8 c.value = 114 then
        [h.sprintf (m.get_axis_position h.motionX) (m.get_axis_position h.motionY)]
      else [] := by
  simp only [handle_mcode, enable_selected_range]
  split_ifs <;> simp_all [writes, writes_append, writes_enable_map, enable_all]

/-- Nothing is written by `handle_gcode`. -/
theorem handle_gcode_writes (h : Headers) (c : Command) (m : Motion) :
    writes (handle_gcode h c m).1 = [] := by
  simp only [handle_gcode]
  split_ifs <;> simp [writes]

/-- The lines written during the dispatch: the position text of M114, or none. -/
theorem dispatch_writes (h : Headers) (c : Command) (m : Motion) :
    writes (dispatch h c m).1 =
      if c.code = 'M' ∧ uint8 c.value = 114 then
        [h.sprintf (m.get_axis_position h.motionX) (m.get_axis_position h.motionY)]
      else [] := by
  unfold dispatch
  split_ifs with hM h1 h2 hG h3 <;>
    simp_all [writes, handle_mcode_writes, handle_gcode_writes]

/-- The log of the dispatch is empty or one handler entry followed by
handler-body calls. -/
theorem dispatch_shape (h : Headers) (c : Command) (m : Motion) :
    (dispatch h c m).1 = [] ∨
    ∃ e t, (dispatch h c m).1 = e :: t ∧ e.isHandler = true ∧ ∀ x ∈ t, x.inHandler = true := by
  unfold dispatch
  split_ifs
  · exact Or.inr ⟨_, _, rfl, rfl, handle_mcode_calls h c m⟩
  · exact Or.inr ⟨_, _, rfl, rfl, handle_gcode_calls h c m⟩
  · exact Or.inl rfl

/-- A handler-body call is none of the calls the loop body makes itself and is
no handler entry. -/
theorem inHandler_ne (x : Call) (hx : x.inHandler = true) :
    x ≠ Call.wdt_reset ∧ x ≠ Call.check_for_command ∧ x ≠ Call.cmd_reset ∧
    x.isHandler = false := by
  cases x <;> simp_all [Call.inHandler, Call.onMotion, Call.isHandler]

/-- The dispatch logs no watchdog reset, no line poll and no command reset,
and at most one handler entry. -/
theorem dispatch_counts (h : Headers) (c : Command) (m : Motion) :
    Call.wdt_reset ∉ (dispatch h c m).1 ∧ Call.check_for_command ∉ (dispatch h c m).1 ∧
    Call.cmd_reset ∉ (dispatch h c m).1 ∧ (dispatch h c m).1.countP Call.isHandler ≤ 1 := by
  rcases dispatch_shape h c m with h0 | ⟨e, t, he, hh, ht⟩
  · simp [h0]
  · rw [he]
    have hn : ∀ x ∈ t, x ≠ Call.wdt_reset ∧ x ≠ Call.check_for_command ∧
        x ≠ Call.cmd_reset ∧ x.isHandler = false := fun x hx => inHandler_ne x (ht x hx)
    have hc : t.countP Call.isHandler = 0 := by
      rw [List.countP_eq_zero]
      intro x hx
      simp [(hn x hx).2.2.2]
    refine ⟨?_, ?_, ?_, ?_⟩
    · intro hmem
      rcases List.mem_cons.1 hmem with h1 | h1
      · rw [← h1] at hh; simp [Call.isHandler] at hh
      · exact (hn _ h1).1 rfl
    · intro hmem
      rcases List.mem_cons.1 hmem with h1 | h1
      · rw [← h1] at hh; simp [Call.isHandler] at hh
      · exact (hn _ h1).2.1 rfl
    · intro hmem
      rcases List.mem_cons.1 hmem with h1 | h1
      · rw [← h1] at hh; simp [Call.isHandler] at hh
      · exact (hn _ h1).2.2.1 rfl
    · simp [List.countP_cons, hc, hh]

/-! ## The loop body -/

/-- C7: in a pass in which a line is available, if the command failed to parse
the pass writes `err [parse]` and enters no handler and makes no call on the
motion interface; otherwise the last line written is `ok`, `full` or `err`
according to the result being `RC_OK`, `RC_FULL` or `RC_ERR`; the map from
results to reply texts is injective. -/
theorem reply_per_pass (h : Headers) (c : Command) (m : Motion) :
    (c.is_ok = false →
      loop_body h true c m =
        [Call.wdt_reset, Call.check_for_command, Call.write_string "err [parse]",
         Call.cmd_reset] ∧
      ∀ e ∈ loop_body h true c m, e.isHandler = false ∧ e.onMotion = false) ∧
    (c.is_ok = true →
      (writes (loop_body h true c m)).getLast? = some (reply (dispatch h c m).2)) ∧
    reply ResultCode.RC_OK = "ok" ∧ reply ResultCode.RC_FULL = "full" ∧
    reply ResultCode.RC_ERR = "err" ∧ Function.Injective reply := by
  refine ⟨?_, ?_, rfl, rfl, rfl, ?_⟩
  · intro hok
    have hl : loop_body h true c m =
        [Call.wdt_reset, Call.check_for_command, Call.write_string "err [parse]",
         Call.cmd_reset] := by
      simp [loop_body, hok]
    refine ⟨hl, ?_⟩
    rw [hl]
    simp [Call.isHandler, Call.onMotion]
  · intro hok
    have hl : loop_body h true c m =
        [Call.wdt_reset, Call.check_for_command] ++
          ((dispatch h c m).1 ++ ([Call.write_string (reply (dispatch h c m).2)] ++
            [Call.cmd_reset])) := by
      simp [loop_body, hok]
    rw [hl]
    simp only [writes_append, dispatch_writes]
    split_ifs <;> simp [writes]
  · intro a b hab
    cases a <;> cases b <;> first | rfl | (exact absurd hab (by decide))

/-- Witness for C7: a line that failed to parse, and `G1 X10 Y5` with the
queue ready. -/
theorem reply_per_pass_witness :
    writes (loop_body hdr true garbled (mot true true)) =
      ["err [parse]"] ∧
    (writes (loop_body hdr true (mkCommand 'G' 1 [(0, Val.num 10), (1, Val.num 5)])
      (mot true true))).getLast? = some "ok" := by
  refine ⟨?_, ?_⟩
  · rw [((reply_per_pass hdr garbled (mot true true)).1
      rfl).1]
    rfl
  · rw [(reply_per_pass hdr (mkCommand 'G' 1 [(0, Val.num 10), (1, Val.num 5)])
      (mot true true)).2.1 rfl]
    decide

/-- Counterexample to C8 as stated: a pass that carries M114 writes two lines,
the position text and then `ok`. -/
theorem position_report_writes_two_lines :
    writes (loop_body hdr true (mkCommand 'M' 114 []) (mot true true)) =
      ["X: 0.00 Y: 0.00", "ok"] ∧
    (writes (loop_body hdr true (mkCommand 'M' 114 []) (mot true true))).length ≠ 1 := by
  decide

/-- C8 (amended): in a pass in which a line is available, the lines are
written after the one poll for a line of that pass and before the pass ends,
hence before the next line is read; exactly one line is written, except when
the M handler runs with code 114, where exactly two are written: the position
text and then `ok`. -/
theorem lines_per_pass (h : Headers) (c : Command) (m : Motion) :
    (∃ rest, loop_body h true c m = Call.wdt_reset :: Call.check_for_command :: rest ∧
      Call.check_for_command ∉ rest ∧ writes (loop_body h true c m) = writes rest) ∧
    (if c.is_ok = true ∧ c.code = 'M' ∧ uint8 c.value = 114 then
      writes (loop_body h true c m) =
        [h.sprintf (m.get_axis_position h.motionX) (m.get_axis_position h.motionY), "ok"]
     else (writes (loop_body h true c m)).length = 1) ∧
    (∀ (p : Pass) (ps : List Pass),
      writes (main_loop h (p :: ps)) =
        writes (loop_body h p.line p.cmd p.motion) ++ writes (main_loop h ps)) := by
  refine ⟨?_, ?_, ?_⟩
  · refine ⟨_, rfl, ?_, ?_⟩
    · cases hok : c.is_ok
      · simp
      · have hd := (dispatch_counts h c m).2.1
        simp [hd]
    · simp [loop_body, writes]
  · cases hok : c.is_ok
    · simp [loop_body, hok, writes]
    · have hl : loop_body h true c m =
          [Call.wdt_reset, Call.check_for_command] ++
            ((dispatch h c m).1 ++ ([Call.write_string (reply (dispatch h c m).2)] ++
              [Call.cmd_reset])) := by
        simp [loop_body, hok]
      rw [hl]
      simp only [writes_append, dispatch_writes]
      by_cases hM : c.code = 'M' ∧ uint8 c.value = 114
      · have hr : (dispatch h c m).2 = ResultCode.RC_OK := by
          simp [dispatch, hM.1, handle_mcode, hM.2]
        simp [hM, hr, writes, reply]
      · simp [hM, writes]
  · intro p ps
    simp [main_loop, writes_append]

/-- The log of a pass in which a line is available: the two leading calls,
the calls made before the reset, and the reset of the command. -/
theorem loop_body_line (h : Headers) (c : Command) (m : Motion) :
    loop_body h true c m =
      Call.wdt_reset :: Call.check_for_command ::
        ((if c.is_ok then
            (dispatch h c m).1 ++ [Call.write_string (reply (dispatch h c m).2)]
          else [Call.write_string "err [parse]"]) ++ [Call.cmd_reset]) := by
  cases hok : c.is_ok <;> simp [loop_body, hok]

/-- C9: in a pass in which a line is available, whatever the outcome, at most
one handler is entered, the command is reset exactly once, the reset is the
last call of the pass and comes after every line written (at least one is);
over a run of passes there is one reset per line received and no more handler
entries than resets, so a parsed command is cleared before any later
dispatch. -/
theorem command_reset_once (h : Headers) (c : Command) (m : Motion) :
    (loop_body h true c m).countP Call.isHandler ≤ 1 ∧
    (loop_body h true c m).count Call.cmd_reset = 1 ∧
    (∃ before, loop_body h true c m = before ++ [Call.cmd_reset] ∧
      Call.cmd_reset ∉ before ∧ writes before = writes (loop_body h true c m) ∧
      writes before ≠ []) ∧
    (∀ ps : List Pass,
      (main_loop h ps).count Call.cmd_reset = (ps.filter (fun p => p.line)).length ∧
      (main_loop h ps).countP Call.isHandler ≤ (main_loop h ps).count Call.cmd_reset) := by
  obtain ⟨hw, hc, hr, hh⟩ := dispatch_counts h c m
  have hcount : ∀ (c : Command) (m : Motion),
      (loop_body h true c m).countP Call.isHandler ≤ 1 ∧
      (loop_body h true c m).count Call.cmd_reset = 1 := by
    intro c m
    obtain ⟨_, _, hr, hh⟩ := dispatch_counts h c m
    rw [loop_body_line]
    cases hok : c.is_ok
    · simp [List.countP_cons, List.count_cons, Call.isHandler]
    · simp [List.countP_cons, List.countP_append, List.count_cons, List.count_append,
        Call.isHandler, List.count_eq_zero_of_not_mem hr]
      exact hh
  refine ⟨(hcount c m).1, (hcount c m).2, ?_, ?_⟩
  · rw [loop_body_line]
    refine ⟨Call.wdt_reset :: Call.check_for_command ::
      (if c.is_ok then
          (dispatch h c m).1 ++ [Call.write_string (reply (dispatch h c m).2)]
        else [Call.write_string "err [parse]"]), by simp, ?_, ?_, ?_⟩
    · cases hok : c.is_ok <;> simp [hr]
    · cases hok : c.is_ok <;> simp [writes, writes_append]
    · cases hok : c.is_ok <;> simp [writes, writes_append]
  · intro ps
    induction ps with
    | nil => simp [main_loop]
    | cons p t ih =>
      obtain ⟨ih1, ih2⟩ := ih
      cases hl : p.line
      · simp [main_loop, loop_body, hl, List.count_cons, List.countP_cons, Call.isHandler,
          ih1]
        simpa [ih1] using ih2
      · have h1 := hcount p.cmd p.motion
        simp only [main_loop, hl, List.count_append, List.countP_append, h1.2, ih1]
        simp [List.filter_cons, hl]
        rw [ih1] at ih2
        omega

/-- C10: every pass of the loop, whatever branch it takes (no line, parse
error, `RC_ERR`, `RC_FULL`, `RC_OK`), begins with the watchdog reset and makes
it exactly once, before the poll for a line and before any handling; over a
run of passes there are as many watchdog resets as passes. -/
theorem watchdog_once (h : Headers) (line : Bool) (c : Command) (m : Motion) :
    (∃ rest, loop_body h line c m = Call.wdt_reset :: rest ∧ Call.wdt_reset ∉ rest) ∧
    (loop_body h line c m).head? = some Call.wdt_reset ∧
    (loop_body h line c m).count Call.wdt_reset = 1 ∧
    (∀ ps : List Pass, (main_loop h ps).count Call.wdt_reset = ps.length) := by
  have hrest : ∀ (line : Bool) (c : Command) (m : Motion),
      ∃ rest, loop_body h line c m = Call.wdt_reset :: rest ∧ Call.wdt_reset ∉ rest := by
    intro line c m
    refine ⟨_, rfl, ?_⟩
    obtain ⟨hw, _, _, _⟩ := dispatch_counts h c m
    cases line <;> cases hok : c.is_ok <;> simp [hw]
  have hone : ∀ (line : Bool) (c : Command) (m : Motion),
      (loop_body h line c m).count Call.wdt_reset = 1 := by
    intro line c m
    obtain ⟨rest, h1, h2⟩ := hrest line c m
    rw [h1]
    simp [List.count_cons, List.count_eq_zero_of_not_mem h2]
  refine ⟨hrest line c m, rfl, hone line c m, ?_⟩
  intro ps
  induction ps with
  | nil => simp [main_loop]
  | cons p t ih => simp [main_loop, List.count_append, hone, ih]; omega

/-- For codes 17 and 18 `handle_mcode` returns `RC_OK` and logs only `enable`
calls. -/
theorem enable_block_calls (h : Headers) (c : Command) (m : Motion)
    (hv : c.value = 17 ∨ c.value = 18) :
    (handle_mcode h c m).2 = ResultCode.RC_OK ∧
    ∀ e ∈ (handle_mcode h c m).1, ∃ i b, e = Call.enable i b := by
  have hen : ∀ (is : List Nat) (en : Bool),
      ∀ e ∈ is.map (fun i => Call.enable i en), ∃ i b, e = Call.enable i b := by
    intro is en e he
    obtain ⟨i, _, rfl⟩ := List.mem_map.1 he
    exact ⟨i, en, rfl⟩
  have hlog : handle_mcode h c m =
      (if (enable_selected c (decide (c.value = 17)) (List.range 3)).2 then
          (enable_selected c (decide (c.value = 17)) (List.range 3)).1 ++
            enable_all (decide (c.value = 17))
        else (enable_selected c (decide (c.value = 17)) (List.range 3)).1,
        ResultCode.RC_OK) := by
    rcases hv with hv | hv <;> simp [handle_mcode, uint8, hv]
  rw [hlog, enable_selected_range]
  refine ⟨rfl, ?_⟩
  simp only [enable_all]
  split_ifs
  · intro e he
    rcases List.mem_append.1 he with he | he
    · exact hen _ _ e he
    · exact hen _ _ e he
  · exact hen _ _

/-! ## Queue-drained query, immediate commands, dwell -/

/-- C11: for M115, for every parameter mapping and motion state,
`handle_mcode` makes the single query `queue_done()` and returns `RC_OK` if
and only if it answers true and `RC_FULL` otherwise; the result does not
depend on `queue_ready()` and no mutating operation is invoked. -/
theorem drained_query (h : Headers) (c : Command) (m : Motion) (hv : c.value = 115) :
    (handle_mcode h c m).1 = [Call.queue_done] ∧
    ((handle_mcode h c m).2 = ResultCode.RC_OK ↔ m.queue_done = true) ∧
    (m.queue_done = false → (handle_mcode h c m).2 = ResultCode.RC_FULL) ∧
    (∀ e ∈ (handle_mcode h c m).1, e.mutating = false) ∧
    (∀ m2 : Motion, m2.queue_done = m.queue_done →
      (handle_mcode h c m2).2 = (handle_mcode h c m).2) := by
  have hm : ∀ m : Motion, handle_mcode h c m =
      ([Call.queue_done],
        if m.queue_done then ResultCode.RC_OK else ResultCode.RC_FULL) := by
    intro m
    cases hd : m.queue_done <;> simp [handle_mcode, uint8, hv, hd]
  refine ⟨by rw [hm], ?_, ?_, ?_, ?_⟩
  · rw [hm]; cases hd : m.queue_done <;> simp
  · intro hd; rw [hm]; simp [hd]
  · rw [hm]; simp [Call.mutating]
  · intro m2 h2; rw [hm, hm, h2]

/-- Witness for C11: `M115` with the queue drained but not ready, and with
the queue ready but not drained. -/
theorem drained_query_witness :
    (mkCommand 'M' 115 []).value = 115 ∧
    (handle_mcode hdr (mkCommand 'M' 115 []) (mot false true)).2 = ResultCode.RC_OK ∧
    (handle_mcode hdr (mkCommand 'M' 115 []) (mot true false)).2 = ResultCode.RC_FULL :=
  ⟨rfl,
   (drained_query hdr (mkCommand 'M' 115 []) (mot false true) rfl).2.1.2 rfl,
   (drained_query hdr (mkCommand 'M' 115 []) (mot true false) rfl).2.2.1 rfl⟩

/-- C12: the immediate commands M17, M18, M114, M230, M231, G92, G100 and
G101 return `RC_OK` for every parameter mapping and every motion state,
whether or not the queue is ready, and never call `queue_ready()`; G92 invokes
`reset_axes` exactly once and G101 invokes `set_jog(0, 0, 0)` exactly once. -/
theorem immediate_commands_ok (h : Headers) (c : Command) (m : Motion) :
    ((c.value = 17 ∨ c.value = 18 ∨ c.value = 114 ∨ c.value = 230 ∨ c.value = 231) →
      (handle_mcode h c m).2 = ResultCode.RC_OK ∧
      Call.queue_ready ∉ (handle_mcode h c m).1) ∧
    ((c.value = 92 ∨ c.value = 100 ∨ c.value = 101) →
      (handle_gcode h c m).2 = ResultCode.RC_OK ∧
      Call.queue_ready ∉ (handle_gcode h c m).1) ∧
    (c.value = 92 → (handle_gcode h c m).1 = [Call.reset_axes]) ∧
    (c.value = 101 →
      (handle_gcode h c m).1 = [Call.set_jog (Val.num 0) (Val.num 0) (Val.num 0)]) := by
  refine ⟨?_, ?_, ?_, ?_⟩
  · rintro (hv | hv | hv | hv | hv)
    · refine ⟨(enable_block_calls h c m (Or.inl hv)).1, ?_⟩
      intro hmem
      obtain ⟨i, b, he⟩ := (enable_block_calls h c m (Or.inl hv)).2 _ hmem
      cases he
    · refine ⟨(enable_block_calls h c m (Or.inr hv)).1, ?_⟩
      intro hmem
      obtain ⟨i, b, he⟩ := (enable_block_calls h c m (Or.inr hv)).2 _ hmem
      cases he
    · simp [handle_mcode, uint8, hv]
    · simp [handle_mcode, uint8, hv]
    · simp [handle_mcode, uint8, hv]
  · rintro (hv | hv | hv) <;> simp [handle_gcode, uint8, hv]
  · intro hv; simp [handle_gcode, uint8, hv]
  · intro hv; simp [handle_gcode, uint8, hv]

/-- Witness for C12: `M17`, `G92` and `G101` while the queue is not ready. -/
theorem immediate_commands_ok_witness :
    (handle_mcode hdr (mkCommand 'M' 17 []) (mot false false)).2 = ResultCode.RC_OK ∧
    (handle_gcode hdr (mkCommand 'G' 92 []) (mot false false)).1 = [Call.reset_axes] ∧
    (handle_gcode hdr (mkCommand 'G' 101 []) (mot false false)).1 =
      [Call.set_jog (Val.num 0) (Val.num 0) (Val.num 0)] ∧
    (handle_gcode hdr (mkCommand 'G' 100 []) (mot false false)).2 = ResultCode.RC_OK :=
  ⟨((immediate_commands_ok hdr (mkCommand 'M' 17 []) (mot false false)).1 (Or.inl rfl)).1,
   (immediate_commands_ok hdr (mkCommand 'G' 92 []) (mot false false)).2.2.1 rfl,
   (immediate_commands_ok hdr (mkCommand 'G' 101 []) (mot false false)).2.2.2 rfl,
   ((immediate_commands_ok hdr (mkCommand 'G' 100 []) (mot false false)).2.1
      (Or.inr (Or.inl rfl))).1⟩

/-- C13: for G4 with the queue ready, `handle_gcode` checks readiness, invokes
`enqueue_dwell` exactly once with the value of the parameter P and nothing
else, and returns `RC_OK`; and whenever a queue-gated command (M3, M4, G0, G1,
G4) returns `RC_OK`, its log holds exactly one mutating call, an enqueue. -/
theorem dwell_enqueues_once (h : Headers) (c : Command) (m : Motion) :
    (c.value = 4 → m.queue_ready = true →
      handle_gcode h c m =
        ([Call.queue_ready, Call.enqueue_dwell (c.param h.P)], ResultCode.RC_OK) ∧
      (handle_gcode h c m).1.filter Call.mutating = [Call.enqueue_dwell (c.param h.P)]) ∧
    ((c.value = 3 ∨ c.value = 4) → (handle_mcode h c m).2 = ResultCode.RC_OK →
      ∃ e, (handle_mcode h c m).1.filter Call.mutating = [e] ∧ e.isEnqueue = true) ∧
    ((c.value = 0 ∨ c.value = 1 ∨ c.value = 4) →
      (handle_gcode h c m).2 = ResultCode.RC_OK →
      ∃ e, (handle_gcode h c m).1.filter Call.mutating = [e] ∧ e.isEnqueue = true) := by
  refine ⟨?_, ?_, ?_⟩
  · intro hv hr
    simp [handle_gcode, uint8, hv, hr, Call.mutating]
  · rintro (hv | hv) hok <;> cases hr : m.queue_ready <;>
      simp_all [handle_mcode, uint8, Call.mutating, Call.isEnqueue]
  · rintro (hv | hv | hv) hok <;> cases hr : m.queue_ready <;>
      simp_all [handle_gcode, uint8, Call.mutating, Call.isEnqueue]

/-- Witness for C13: `G4 P250` with the queue ready. -/
theorem dwell_enqueues_once_witness :
    (mkCommand 'G' 4 [(4, Val.num 250)]).value = 4 ∧ (mot true true).queue_ready = true ∧
    handle_gcode hdr (mkCommand 'G' 4 [(4, Val.num 250)]) (mot true true) =
      ([Call.queue_ready, Call.enqueue_dwell (Val.num 250)], ResultCode.RC_OK) := by
  refine ⟨rfl, rfl, ?_⟩
  rw [((dwell_enqueues_once hdr (mkCommand 'G' 4 [(4, Val.num 250)]) (mot true true)).1
    rfl rfl).1]
  rfl

/-! ## Startup order -/

/-- C14: in the startup of `main` the calls come in the order `reset(true)`,
`motion::init()`, the two `setPotValue` calls, `init_timers()`, `sei()`, then
the button array, the display, the transport and the `Ready.` notice, and the
loop follows the whole startup; the compare-match interrupt of timer 5 is
enabled only after `motion::init()`.  But the global interrupt flag is set
earlier than the claim says: `reset(true)` leaves its `ATOMIC_FORCEON` block
with interrupts enabled, so the flag is already on when `motion::init()`
starts, whatever it was at entry to `main`. -/
theorem startup_interrupts_on_before_motion_init :
    startup.indexOf (Step.wdt_enable WDTO_8S) < startup.indexOf Step.motion_init ∧
    startup.indexOf Step.motion_init < startup.indexOf (Step.setPotValue Pot.X_POT_PIN 40) ∧
    startup.indexOf (Step.setPotValue Pot.X_POT_PIN 40) <
      startup.indexOf (Step.setPotValue Pot.Y_POT_PIN 80) ∧
    startup.indexOf (Step.setPotValue Pot.Y_POT_PIN 80) <
      startup.indexOf (Step.assign Reg.TCCR5A 0) ∧
    startup.indexOf (Step.or_assign Reg.TIMSK5 (1 <<< OCIE5A)) < startup.indexOf Step.sei ∧
    startup.indexOf Step.sei < startup.indexOf Step.ButtonArray_init ∧
    startup.indexOf Step.ButtonArray_init < startup.indexOf Step.lcd_begin ∧
    startup.indexOf Step.lcd_begin < startup.indexOf Step.UART_initialize ∧
    startup.indexOf Step.UART_initialize <
      startup.indexOf (Step.call (Call.write_string "Ready.")) ∧
    startup.count Step.sei = 1 ∧
    (∀ (h : Headers) (ps : List Pass),
      main_program h ps = startup ++ (main_loop h ps).map Step.call) ∧
    startup.indexOf Step.atomic_end_forceon < startup.indexOf Step.motion_init ∧
    (∀ flag : Bool,
      interrupts flag (startup.take (startup.indexOf Step.motion_init)) = true) ∧
    (∀ flag : Bool,
      interrupts flag (startup.take (startup.indexOf (Step.assign Reg.TCCR5A 0))) = true) := by
  refine ⟨by decide, by decide, by decide, by decide, by decide, by decide, by decide,
    by decide, by decide, by decide, fun _ _ => rfl, by decide, ?_, ?_⟩
  · intro flag; cases flag <;> decide
  · intro flag; cases flag <;> decide

/-! ## Jog, echo, idle pass -/

/-- C15: for G100, for every parameter mapping and motion state,
`handle_gcode` invokes `set_jog` exactly once, and nothing else, with the X
and Y parameter values and the feedrate of the expression shared with G0/G1:
the F parameter when present, otherwise `DEFAULT_G1_FEEDRATE`, the branch the
expression takes for every code other than 0. -/
theorem jog_sets_target (h : Headers) (c : Command) (m : Motion) (hv : c.value = 100) :
    ∃ f : Val,
      handle_gcode h c m =
        ([Call.set_jog (c.param h.X) (c.param h.Y) f], ResultCode.RC_OK) ∧
      f = feedrate h c (uint8 c.value) ∧
      (c.has_param h.F = true → f = c.param h.F) ∧
      (c.has_param h.F = false → f = h.DEFAULT_G1_FEEDRATE) := by
  refine ⟨feedrate h c (uint8 c.value), ?_, rfl, ?_, ?_⟩
  · simp [handle_gcode, uint8, hv]
  · intro hF; simp [feedrate, hF]
  · intro hF; simp [feedrate, hF, hv, uint8]

/-- Witness for C15: `G100 X1 Y2` takes the linear default (50 here, the rapid
default being 100) and `G100 X1 Y2 F7` takes 7. -/
theorem jog_sets_target_witness :
    (mkCommand 'G' 100 [(0, Val.num 1), (1, Val.num 2)]).value = 100 ∧
    handle_gcode hdr (mkCommand 'G' 100 [(0, Val.num 1), (1, Val.num 2)]) (mot false false) =
      ([Call.set_jog (Val.num 1) (Val.num 2) (Val.num 50)], ResultCode.RC_OK) ∧
    handle_gcode hdr (mkCommand 'G' 100 [(0, Val.num 1), (1, Val.num 2), (3, Val.num 7)])
        (mot false false) =
      ([Call.set_jog (Val.num 1) (Val.num 2) (Val.num 7)], ResultCode.RC_OK) := by
  refine ⟨rfl, ?_, ?_⟩
  · obtain ⟨f, h1, _, _, h4⟩ :=
      jog_sets_target hdr (mkCommand 'G' 100 [(0, Val.num 1), (1, Val.num 2)])
        (mot false false) rfl
    rw [h1, h4 (by decide)]
    rfl
  · obtain ⟨f, h1, _, h3, _⟩ :=
      jog_sets_target hdr (mkCommand 'G' 100 [(0, Val.num 1), (1, Val.num 2), (3, Val.num 7)])
        (mot false false) rfl
    rw [h1, h3 (by decide)]
    rfl

/-- C16: for M230 and M231, for every prior value of the echo flag, the only
call is `set_echo(true)` for 230 and `set_echo(false)` for 231, so the flag is
on after M230 and off after M231 and issuing the same code twice changes
nothing more; no call is made on the motion interface and the result is
`RC_OK`. -/
theorem echo_commands (h : Headers) (c : Command) (m : Motion) (flag : Bool)
    (hv : c.value = 230 ∨ c.value = 231) :
    handle_mcode h c m = ([Call.set_echo (decide (c.value = 230))], ResultCode.RC_OK) ∧
    echo_after flag (handle_mcode h c m).1 = decide (c.value = 230) ∧
    (c.value = 230 → echo_after flag (handle_mcode h c m).1 = true) ∧
    (c.value = 231 → echo_after flag (handle_mcode h c m).1 = false) ∧
    echo_after (echo_after flag (handle_mcode h c m).1) (handle_mcode h c m).1 =
      echo_after flag (handle_mcode h c m).1 ∧
    (∀ e ∈ (handle_mcode h c m).1, e.onMotion = false) := by
  have hl : handle_mcode h c m =
      ([Call.set_echo (decide (c.value = 230))], ResultCode.RC_OK) := by
    rcases hv with hv | hv <;> simp [handle_mcode, uint8, hv]
  rw [hl]
  refine ⟨rfl, rfl, ?_, ?_, rfl, ?_⟩
  · intro h1; simp [echo_after, h1]
  · intro h1; simp [echo_after, h1]
  · simp [Call.onMotion]

/-- Witness for C16: `M230` with the flag off, `M231` with the flag on. -/
theorem echo_commands_witness :
    (mkCommand 'M' 230 []).value = 230 ∧
    echo_after false (handle_mcode hdr (mkCommand 'M' 230 []) (mot true true)).1 = true ∧
    echo_after true (handle_mcode hdr (mkCommand 'M' 231 []) (mot true true)).1 = false :=
  ⟨rfl,
   (echo_commands hdr (mkCommand 'M' 230 []) (mot true true) false (Or.inl rfl)).2.2.1 rfl,
   (echo_commands hdr (mkCommand 'M' 231 []) (mot true true) true (Or.inr rfl)).2.2.2.1 rfl⟩

/-- C17: in a pass in which no complete line is available the log is the
watchdog reset followed by the poll for a line: nothing is written, no handler
is entered, no call is made on the motion interface, no mutating call is made
and the command is not reset. -/
theorem idle_pass (h : Headers) (c : Command) (m : Motion) :
    loop_body h false c m = [Call.wdt_reset, Call.check_for_command] ∧
    writes (loop_body h false c m) = [] ∧
    Call.cmd_reset ∉ loop_body h false c m ∧
    (∀ e ∈ loop_body h false c m,
      e.isHandler = false ∧ e.onMotion = false ∧ e.mutating = false) ∧
    (∀ (σ : Type) (step : σ → Call → σ) (s : σ), replay step s (loop_body h false c m) = s) := by
  have hl : loop_body h false c m = [Call.wdt_reset, Call.check_for_command] := by
    simp [loop_body]
  rw [hl]
  simp [writes, Call.isHandler, Call.onMotion, Call.mutating, replay]

/-! ## Timer setup -/

/-- In CTC mode the counter started at 0 holds `k` after `k` ticks for every
`k` up to the compare value, and is back at 0 one tick later: the period is
`ctc_period`. -/
theorem ctc_counter (ocr : Nat) :
    (∀ k, k ≤ ocr → (ctc_tick ocr)^[k] 0 = k) ∧ (ctc_tick ocr)^[ctc_period ocr] 0 = 0 := by
  have hk : ∀ k, k ≤ ocr → (ctc_tick ocr)^[k] 0 = k := by
    intro k
    induction k with
    | zero => intro _; rfl
    | succ n ih =>
      intro hn
      rw [Function.iterate_succ_apply', ih (by omega)]
      have hne : n ≠ ocr := by omega
      simp [ctc_tick, hne]
  refine ⟨hk, ?_⟩
  rw [ctc_period, Function.iterate_succ_apply', hk ocr (le_refl ocr)]
  simp [ctc_tick]

/-- C18: `init_timers` writes `TCCR5B = 0x0A`, whose clock-select bits are 010
(prescaler 8) and whose waveform bits WGM53:2 are 01 (CTC), and
`OCR5A = 0x0c8 = 200`, and enables the compare-match interrupt last, as the
claim says, and 16 000 000 / 8 / 200 is 10 000.  But a CTC counter with
compare value 200 passes through 0..200, so its period is 201 ticks, not 200:
at 16 MHz the registers give 16 000 000 / 8 / 201, that is 9950 whole matches
per second, and no exact 10 kHz (only a 16.08 MHz clock would give it). -/
theorem init_timers_rate :
    init_timers =
      [Step.assign Reg.TCCR5A 0, Step.assign Reg.TCCR5B 10, Step.assign Reg.OCR5A 200,
       Step.or_assign Reg.TIMSK5 2] ∧
    assigned Reg.TCCR5B init_timers = some 0x0A ∧
    clock_select 0x0A = 2 ∧ prescaler (clock_select 0x0A) = some 8 ∧
    waveform_high 0x0A = 1 ∧
    assigned Reg.OCR5A init_timers = some 200 ∧
    16000000 / 8 / 200 = 10000 ∧
    (∀ k, k ≤ 200 → (ctc_tick 200)^[k] 0 = k) ∧ (ctc_tick 200)^[201] 0 = 0 ∧
    ctc_period 200 = 201 ∧
    timer_rate 16000000 init_timers = some 9950 ∧
    timer_rate 16000000 init_timers ≠ some 10000 ∧
    ¬ (8 * ctc_period 200 ∣ 16000000) ∧
    (∀ f_cpu : Nat, timer_rate f_cpu init_timers = some (f_cpu / 8 / 201)) ∧
    timer_rate 16080000 init_timers = some 10000 := by
  refine ⟨by decide, by decide, by decide, by decide, by decide, by decide, by decide,
    (ctc_counter 200).1, (ctc_counter 200).2, rfl, by decide, by decide, by decide,
    fun _ => rfl, by decide⟩

/-! ## Size of the position report -/

/-- C19: with both axes at 140737488355328 (2^47) the text M114 formats is
`X: 140737488355328.00 Y: 140737488355328.00`, 43 characters, which with its
terminating NUL does not fit the 40-byte buffer; with both axes at 0 the text
has 15 characters and fits. -/
theorem position_text_exceeds_buffer :
    writes (handle_mcode hdr_c (mkCommand 'M' 114 [])
        (mot_at (Val.num 140737488355328))).1 =
      ["X: 140737488355328.00 Y: 140737488355328.00"] ∧
    (sprintf_pos (Val.num 140737488355328) (Val.num 140737488355328)).length = 43 ∧
    ¬ (sprintf_pos (Val.num 140737488355328) (Val.num 140737488355328)).length + 1
        ≤ BUF_SIZE ∧
    (sprintf_pos (Val.num 0) (Val.num 0)).length + 1 ≤ BUF_SIZE := by
  decide

/-! ## The result as a function of code and queue state -/

/-- The result of the dispatch is `result_of` the code letter, the `uint8_t`
code and the two queue answers. -/
theorem dispatch_result_of (h : Headers) (c : Command) (m : Motion) :
    (dispatch h c m).2 = result_of c.code (uint8 c.value) m.queue_ready m.queue_done := by
  by_cases hM : c.code = 'M'
  · simp only [dispatch, result_of, hM, if_true, handle_mcode]
    cases hr : m.queue_ready <;> cases hd : m.queue_done <;> split_ifs <;> simp_all
  · by_cases hG : c.code = 'G'
    · have hGM : ¬ ('G' = 'M') := by decide
      simp only [dispatch, result_of, hG, hGM, if_true, if_false, handle_gcode]
      cases hr : m.queue_ready <;> split_ifs <;> simp_all
    · simp [dispatch, result_of, hM, hG]

/-- C20: the result of the dispatch is a function of the code letter, the code
number, `queue_ready()` and `queue_done()` alone: two commands with the same
letter and number, run in states that agree on the two queue answers, get the
same result, whatever their parameters, the rest of the motion state and the
header constants. -/
theorem result_depends_on_code_and_queue (h1 h2 : Headers) (c1 c2 : Command)
    (m1 m2 : Motion) (hc : c1.code = c2.code) (hv : c1.value = c2.value)
    (hr : m1.queue_ready = m2.queue_ready) (hd : m1.queue_done = m2.queue_done) :
    (dispatch h1 c1 m1).2 = (dispatch h2 c2 m2).2 := by
  rw [dispatch_result_of, dispatch_result_of, hc, hv, hr, hd]

/-- Witness for C20: `G1 X10 Y5 F200` and a bare `G1`, at different axis
positions and with different header constants, both with the queue ready and
drained. -/
theorem result_depends_on_code_and_queue_witness :
    (mkCommand 'G' 1 [(0, Val.num 10), (1, Val.num 5), (3, Val.num 200)]).code =
      (mkCommand 'G' 1 []).code ∧
    (mot true true).queue_ready = (mot_at (Val.num 7)).queue_ready ∧
    (mot true true).queue_done = (mot_at (Val.num 7)).queue_done ∧
    (dispatch hdr (mkCommand 'G' 1 [(0, Val.num 10), (1, Val.num 5), (3, Val.num 200)])
        (mot true true)).2 =
      (dispatch hdr_c (mkCommand 'G' 1 []) (mot_at (Val.num 7))).2 :=
  ⟨rfl, rfl, rfl,
   result_depends_on_code_and_queue hdr hdr_c
     (mkCommand 'G' 1 [(0, Val.num 10), (1, Val.num 5), (3, Val.num 200)])
     (mkCommand 'G' 1 []) (mot true true) (mot_at (Val.num 7)) rfl rfl rfl rfl⟩

end Rep2xy
